import Mathlib

/-!
Verification of the gws/gbs WebSocket engine against its specification.

The repository sources embedded here:
- src/unnamed/part_000 (package gbs): frame reading path — checkMask,
  readControl, readFrame, ReadMessage, emitMessage.
- src/client.go (package gbs): client handshake validation — checkHeaders,
  getSubProtocol.
- src/option.go (package gws): option defaulting — initServerOption,
  initClientOption.

Bytes are modelled as Nat (values below 256; no arithmetic overflows occur
in the embedded code paths: the only byte operation is XOR, which stays
below 256 on byte inputs). Fallible operations return Option/Except or an
explicit outcome type.
-/

namespace Gws

/-! ## Close codes and protocol constants

Modelled from the spec (section 6): the internal package of the repository
is not under src/. CloseProtocolError 1002, CloseMessageTooLarge 1009,
CloseUnsupportedData 1007; ThresholdV1 is the 125 byte control frame
payload limit. -/

def CloseProtocolError : Nat := 1002

def CloseMessageTooLarge : Nat := 1009

def CloseUnsupportedData : Nat := 1007

def ThresholdV1 : Nat := 125

/-! ## Opcodes (spec section 3: the closed set) -/

def OpcodeContinuation : Nat := 0

def OpcodeText : Nat := 1

def OpcodeBinary : Nat := 2

def OpcodeCloseConnection : Nat := 8

def OpcodePing : Nat := 9

def OpcodePong : Nat := 10

/-- Modelled from the spec: data opcodes are Continuation, Text, Binary
(codes 0, 1, 2); the method body is in the opcode file of the repository,
not under src/. -/
def isDataFrame (c : Nat) : Bool := c ≤ 2

/-! ## Frame model

A parsed inbound frame: header bits plus the raw (possibly masked) payload
bytes. The header Parse of the codec returns the content length, which for
the embedding is the length of the payload list. -/

structure Frame where
  fin : Bool
  rsv1 : Bool
  rsv2 : Bool
  rsv3 : Bool
  mask : Bool
  maskKey : List Nat
  opcode : Nat
  payload : List Nat
  deriving DecidableEq, Repr

/-- MaskXOR from the internal package (spec section 4.A Unmask): XOR the
payload with the 4 byte key cycled by index mod 4. -/
def MaskXOR (p : List Nat) (key : List Nat) : List Nat :=
  List.zipWith (fun i b => Nat.xor b (key.getD (i % 4) 0)) (List.range p.length) p

/-- The 7 bit length code of the frame header: the payload length when it
fits in 7 bits, otherwise the escape codes 126 / 127 (extended lengths). -/
def Frame.lengthCode (f : Frame) : Nat :=
  if f.payload.length ≤ 125 then f.payload.length
  else if f.payload.length ≤ 65535 then 126
  else 127

/-- The logical payload of a frame: unmasked when the MASK bit is set
(src/unnamed/part_000 lines 110-112 and 46-48). -/
def Frame.plain (f : Frame) : List Nat :=
  if f.mask then MaskXOR f.payload f.maskKey else f.payload

/-! ## Connection model -/

/-- Continuation state of a connection (spec section 3). -/
structure ContinuationFrame where
  initialized : Bool
  opcode : Nat
  buffer : List Nat
  deriving DecidableEq, Repr

/-- Modelled from the spec: reset clears the continuation state
(initialized = false); the method body is in the connection file of the
repository, not under src/. -/
def ContinuationFrame.reset : ContinuationFrame := ⟨false, 0, []⟩

/-- The configuration fields read by the frame reading path of
src/unnamed/part_000. -/
structure Config where
  ReadMaxPayloadSize : Nat
  CheckUtf8Enabled : Bool
  ParallelEnabled : Bool
  deriving DecidableEq, Repr

structure Conn where
  isServer : Bool
  config : Config
  continuationFrame : ContinuationFrame
  deriving DecidableEq, Repr

/-- A message: opcode plus owned payload bytes. -/
structure Message where
  Opcode : Nat
  Data : List Nat
  deriving DecidableEq, Repr

/-- Outcome of one readFrame call. In the source, readFrame returns a
(Message, error) pair and control frames are handled inline through the
handler callbacks; ping / pong / pending correspond to the (nil, nil)
result that makes ReadMessage loop, closeEvt to the emitClose path, err to
a non nil error carrying a close code. -/
inductive ReadOutcome
  | err (code : Nat)
  | ping (payload : List Nat)
  | pong (payload : List Nat)
  | closeEvt (payload : List Nat)
  | pending
  | msg (m : Message)
  deriving DecidableEq, Repr

/-- checkMask, src/unnamed/part_000 lines 13-20. -/
def Conn.checkMask (c : Conn) (enabled : Bool) : Option Nat :=
  if (c.isServer && !enabled) || (!c.isServer && enabled) then
    some CloseProtocolError
  else
    none

/-- readControl, src/unnamed/part_000 lines 24-65: control frames must have
FIN set and a length code of at most 125; Ping, Pong and Close dispatch to
the handler, any other opcode is a protocol error. -/
def Conn.readControl (c : Conn) (f : Frame) : ReadOutcome :=
  if f.fin = false then .err CloseProtocolError
  else if f.lengthCode > ThresholdV1 then .err CloseProtocolError
  else
    let payload := f.plain
    if f.opcode = OpcodePing then .ping payload
    else if f.opcode = OpcodePong then .pong payload
    else if f.opcode = OpcodeCloseConnection then .closeEvt payload
    else .err CloseProtocolError

/-- The data frame half of readFrame, src/unnamed/part_000 lines 101-145:
continuation bookkeeping and message assembly. -/
def Conn.readDataFrame (c : Conn) (f : Frame) : Conn × ReadOutcome :=
  let p := f.plain
  -- line 114: a non continuation data frame while a continuation is active
  if f.opcode ≠ OpcodeContinuation ∧ c.continuationFrame.initialized = true then
    (c, .err CloseProtocolError)
  -- line 118: unfragmented data frame, delivered directly
  else if f.fin = true ∧ f.opcode ≠ OpcodeContinuation then
    (c, .msg ⟨f.opcode, p⟩)
  else
    -- line 126: first fragment opens the continuation
    let c1 :=
      if f.fin = false ∧ f.opcode ≠ OpcodeContinuation then
        { c with continuationFrame := ⟨true, f.opcode, []⟩ }
      else c
    -- line 131: continuation frame without an active continuation
    if c1.continuationFrame.initialized = false then
      (c1, .err CloseProtocolError)
    else
      -- line 135: append the fragment, line 136: running total bound
      let buf := c1.continuationFrame.buffer ++ p
      let c2 := { c1 with
        continuationFrame := { c1.continuationFrame with buffer := buf } }
      if buf.length > c2.config.ReadMaxPayloadSize then
        (c2, .err CloseMessageTooLarge)
      else if f.fin = false then
        (c2, .pending)
      else
        ({ c2 with continuationFrame := ContinuationFrame.reset },
         .msg ⟨c2.continuationFrame.opcode, buf⟩)

/-- readFrame, src/unnamed/part_000 lines 69-146: size bound, reserved bit
check, mask check, then control dispatch or the data path. -/
def Conn.readFrame (c : Conn) (f : Frame) : Conn × ReadOutcome :=
  -- line 76: declared content length bound
  if f.payload.length > c.config.ReadMaxPayloadSize then
    (c, .err CloseMessageTooLarge)
  -- line 87: reserved bits must be clear (no extension is negotiated)
  else if (f.rsv1 || f.rsv2 || f.rsv3) = true then
    (c, .err CloseProtocolError)
  else
    -- lines 91-94: mask bit consistent with the role
    match c.checkMask f.mask with
    | some code => (c, .err code)
    | none =>
      -- lines 96-99: control frames are handled inline
      if isDataFrame f.opcode = false then (c, c.readControl f)
      else c.readDataFrame f

/-- Result of the ReadMessage loop. -/
inductive LoopResult
  | err (code : Nat)
  | closed (payload : List Nat)
  | eof
  | msg (m : Message)
  deriving DecidableEq, Repr

/-- ReadMessage, src/unnamed/part_000 lines 148-158: loop readFrame until a
message or an error; the frame stream is a list, running out of frames is
the underlying read error. Returns the final connection, the result, and
the unconsumed frames. -/
def Conn.ReadMessage : Conn → List Frame → Conn × LoopResult × List Frame
  | c, [] => (c, .eof, [])
  | c, f :: rest =>
    match c.readFrame f with
    | (c1, .err code) => (c1, .err code, rest)
    | (c1, .closeEvt p) => (c1, .closed p, rest)
    | (c1, .msg m) => (c1, .msg m, rest)
    | (c1, .ping _) => c1.ReadMessage rest
    | (c1, .pong _) => c1.ReadMessage rest
    | (c1, .pending) => c1.ReadMessage rest

/-! ## emitMessage (src/unnamed/part_000 lines 181-189) -/

/-- Modelled from the spec: internal.CheckEncoding — if CheckUtf8Enabled
and the opcode is Text, validate UTF-8 across the payload; UTF-8 validity
itself is an external collaborator (spec section 1) and is a parameter. -/
def CheckEncoding (valid : List Nat → Bool) (enabled : Bool) (opcode : Nat)
    (payload : List Nat) : Bool :=
  if enabled ∧ opcode = OpcodeText then valid payload else true

inductive EmitResult
  | err (code : Nat)
  | dispatched (parallel : Bool)
  deriving DecidableEq, Repr

/-- emitMessage, src/unnamed/part_000 lines 181-189: failed encoding check
gives CloseUnsupportedData, otherwise the message is dispatched (through
the parallel read queue when ParallelEnabled). -/
def Conn.emitMessage (valid : List Nat → Bool) (c : Conn) (m : Message) :
    EmitResult :=
  if CheckEncoding valid c.config.CheckUtf8Enabled m.Opcode m.Data = false then
    .err CloseUnsupportedData
  else
    .dispatched c.config.ParallelEnabled

/-! ## Client handshake validation (src/client.go)

String helpers of the internal package are not under src/; they are
modelled from the spec wording (section 4.D) over the character lists of
the strings. -/

/-- Error values of the client path (src/client.go usage sites). -/
inductive GErr
  | handshake
  | subprotocolNegotiation
  | unsupportedProtocol
  deriving DecidableEq, Repr

/-- Whether the word w occurs at the start of l. -/
def listPrefixOf : List Char → List Char → Bool
  | [], _ => true
  | _ :: _, [] => false
  | a :: as, b :: bs => a == b && listPrefixOf as bs

/-- Whether the word w occurs anywhere in l. -/
def containsSub (hay needle : List Char) : Bool :=
  match hay with
  | [] => needle.isEmpty
  | _ :: rest => listPrefixOf needle hay || containsSub rest needle

/-- Modelled from the spec: internal.HttpHeaderContains — the Connection
header value must contain the token (substring containment). -/
def HttpHeaderContains (a b : String) : Bool := containsSub a.data b.data

/-- Modelled from the spec: strings.EqualFold of the standard library —
case insensitive string equality. -/
def asciiEqualFold (a b : String) : Bool :=
  a.data.map Char.toLower == b.data.map Char.toLower

/-- Comma split of a list of characters (no separator collapsing). -/
def splitListOn (sep : Char) : List Char → List (List Char)
  | [] => [[]]
  | ch :: rest =>
    match splitListOn sep rest with
    | [] => if ch == sep then [[], []] else [[ch]]
    | h :: t => if ch == sep then [] :: h :: t else (ch :: h) :: t

/-- Drop leading and trailing spaces. -/
def trimSpaces (l : List Char) : List Char :=
  ((l.dropWhile (fun ch => ch == ' ')).reverse.dropWhile
    (fun ch => ch == ' ')).reverse

/-- Modelled from the spec: internal.Split — split on commas, trim spaces,
drop empty items. -/
def Split (s : String) : List String :=
  (((splitListOn ',' s.data).map fun w => String.mk (trimSpaces w)).filter
    fun x => x != "")

/-- List membership check over strings. -/
def listHas (l : List String) (x : String) : Bool :=
  match l with
  | [] => false
  | y :: rest => x == y || listHas rest x

/-- Modelled from the spec: internal.GetIntersectionElem — the first
element of a that also occurs in b, or the empty string. -/
def GetIntersectionElem (a b : List String) : String :=
  match a with
  | [] => ""
  | x :: rest => if listHas b x then x else GetIntersectionElem rest b

/-- The connector fields read by the handshake validation
(src/client.go lines 26-31): the generated Sec-WebSocket-Key and the
Sec-WebSocket-Protocol request header value. -/
structure Connector where
  secWebsocketKey : String
  requestSecWebSocketProtocol : String
  deriving DecidableEq, Repr

/-- The HTTP response fields read by checkHeaders and getSubProtocol. -/
structure HttpResponse where
  StatusCode : Nat
  ConnectionVal : String
  UpgradeVal : String
  SecWebSocketAcceptVal : String
  SecWebSocketProtocolVal : String
  deriving DecidableEq, Repr

/-- checkHeaders, src/client.go lines 183-197. computeAcceptKey stands for
internal.ComputeAcceptKey (base64 of SHA1 of key plus GUID), an external
cryptographic routine passed as a parameter. -/
def Connector.checkHeaders (computeAcceptKey : String → String)
    (c : Connector) (resp : HttpResponse) : Option GErr :=
  if resp.StatusCode ≠ 101 then some .handshake
  else if HttpHeaderContains resp.ConnectionVal "Upgrade" = false then
    some .handshake
  else if asciiEqualFold resp.UpgradeVal "websocket" = false then
    some .handshake
  else if resp.SecWebSocketAcceptVal ≠ computeAcceptKey c.secWebsocketKey then
    some .handshake
  else none

/-- getSubProtocol, src/client.go lines 171-179. -/
def Connector.getSubProtocol (c : Connector) (resp : HttpResponse) :
    Except GErr String :=
  let a := Split c.requestSecWebSocketProtocol
  let b := Split resp.SecWebSocketProtocolVal
  let subprotocol := GetIntersectionElem a b
  if 0 < a.length ∧ subprotocol = "" then .error .subprotocolNegotiation
  else .ok subprotocol

/-! ## Option defaulting (src/option.go)

Durations are modelled as nanosecond counts (Int, matching the signed Go
int fields); function and object valued fields are modelled by presence
flags, since only nil checks are performed on them. -/

def defaultReadAsyncGoLimit : Int := 8

/-- flate.BestSpeed of the external compression library. -/
def defaultCompressLevel : Int := 1

def defaultReadMaxPayloadSize : Int := 16 * 1024 * 1024

def defaultWriteMaxPayloadSize : Int := 16 * 1024 * 1024

def defaultCompressThreshold : Int := 512

def defaultCompressorPoolSize : Int := 32

def defaultReadBufferSize : Int := 4 * 1024

def defaultWriteBufferSize : Int := 4 * 1024

def defaultHandshakeTimeout : Int := 5 * 1000000000

def defaultDialTimeout : Int := 5 * 1000000000

/-- PermessageDeflate configuration block (src/option.go lines 30-68).
Field default values give the Go zero value of the struct. -/
structure PermessageDeflate where
  Enabled : Bool := false
  Level : Int := 0
  Threshold : Int := 0
  PoolSize : Int := 0
  ServerContextTakeover : Bool := false
  ClientContextTakeover : Bool := false
  ServerMaxWindowBits : Int := 0
  ClientMaxWindowBits : Int := 0
  deriving DecidableEq, Repr

/-- ServerOption (src/option.go lines 110-150). -/
structure ServerOption where
  WriteBufferSize : Int := 0
  Deflate : PermessageDeflate := {}
  ReadAsyncEnabled : Bool := false
  ReadAsyncGoLimit : Int := 0
  ReadMaxPayloadSize : Int := 0
  ReadBufferSize : Int := 0
  WriteMaxPayloadSize : Int := 0
  CheckUtf8Enabled : Bool := false
  LoggerSet : Bool := false
  RecoverySet : Bool := false
  HandshakeTimeout : Int := 0
  SubProtocols : List String := []
  ResponseHeaderSet : Bool := false
  AuthorizeSet : Bool := false
  NewSessionSet : Bool := false
  deriving DecidableEq, Repr

/-- ClientOption (src/option.go lines 239-281). -/
structure ClientOption where
  WriteBufferSize : Int := 0
  Deflate : PermessageDeflate := {}
  ReadAsyncEnabled : Bool := false
  ReadAsyncGoLimit : Int := 0
  ReadMaxPayloadSize : Int := 0
  ReadBufferSize : Int := 0
  WriteMaxPayloadSize : Int := 0
  CheckUtf8Enabled : Bool := false
  LoggerSet : Bool := false
  RecoverySet : Bool := false
  Addr : String := ""
  RequestHeaderSet : Bool := false
  HandshakeTimeout : Int := 0
  NewDialerSet : Bool := false
  NewSessionSet : Bool := false
  deriving DecidableEq, Repr

/-- Modelled from the spec: internal.ToBinaryNumber — the smallest power
of two at least the argument (section 4.H); the internal package is not
under src/. Implemented as the doubling loop starting from one, with the
argument as fuel. -/
def nextPow2Aux (n : Int) : Nat → Int → Int
  | 0, x => x
  | fuel + 1, x => if x < n then nextPow2Aux n fuel (x * 2) else x

def ToBinaryNumber (n : Int) : Int := nextPow2Aux n n.toNat 1

/-- The deflate block normalization of initServerOption
(src/option.go lines 199-216): window bits outside 8..15 snap to 15,
threshold, level and pool size default, pool size is coerced to a power of
two. Each update touches a distinct field and every condition reads the
incoming record, so the sequential Go statements are one record update. -/
def initDeflateServer (pd : PermessageDeflate) : PermessageDeflate :=
  { pd with
    ServerMaxWindowBits :=
      if pd.ServerMaxWindowBits < 8 ∨ pd.ServerMaxWindowBits > 15 then 15
      else pd.ServerMaxWindowBits,
    ClientMaxWindowBits :=
      if pd.ClientMaxWindowBits < 8 ∨ pd.ClientMaxWindowBits > 15 then 15
      else pd.ClientMaxWindowBits,
    Threshold := if pd.Threshold ≤ 0 then defaultCompressThreshold else pd.Threshold,
    Level := if pd.Level = 0 then defaultCompressLevel else pd.Level,
    PoolSize :=
      ToBinaryNumber
        (if pd.PoolSize ≤ 0 then defaultCompressorPoolSize else pd.PoolSize) }

/-- The deflate block normalization of initClientOption
(src/option.go lines 320-334): as the server one, but the pool size is
fixed to one. -/
def initDeflateClient (pd : PermessageDeflate) : PermessageDeflate :=
  { pd with
    ServerMaxWindowBits :=
      if pd.ServerMaxWindowBits < 8 ∨ pd.ServerMaxWindowBits > 15 then 15
      else pd.ServerMaxWindowBits,
    ClientMaxWindowBits :=
      if pd.ClientMaxWindowBits < 8 ∨ pd.ClientMaxWindowBits > 15 then 15
      else pd.ClientMaxWindowBits,
    Threshold := if pd.Threshold ≤ 0 then defaultCompressThreshold else pd.Threshold,
    Level := if pd.Level = 0 then defaultCompressLevel else pd.Level,
    PoolSize := 1 }

/-- initServerOption, src/option.go lines 161-234: a nil argument becomes
a fresh zero record; each nonpositive or nil field takes its default; the
deflate block is normalized only when enabled. The config snapshot and the
protected header deletion carry these values to I/O objects and are not
part of the option record. -/
def initServerOption (co : Option ServerOption) : ServerOption :=
  let c := co.getD {}
  { c with
    ReadMaxPayloadSize :=
      if c.ReadMaxPayloadSize ≤ 0 then defaultReadMaxPayloadSize
      else c.ReadMaxPayloadSize,
    ReadAsyncGoLimit :=
      if c.ReadAsyncGoLimit ≤ 0 then defaultReadAsyncGoLimit
      else c.ReadAsyncGoLimit,
    ReadBufferSize :=
      if c.ReadBufferSize ≤ 0 then defaultReadBufferSize else c.ReadBufferSize,
    WriteMaxPayloadSize :=
      if c.WriteMaxPayloadSize ≤ 0 then defaultWriteMaxPayloadSize
      else c.WriteMaxPayloadSize,
    WriteBufferSize :=
      if c.WriteBufferSize ≤ 0 then defaultWriteBufferSize
      else c.WriteBufferSize,
    AuthorizeSet := true,
    NewSessionSet := true,
    ResponseHeaderSet := true,
    HandshakeTimeout :=
      if c.HandshakeTimeout ≤ 0 then defaultHandshakeTimeout
      else c.HandshakeTimeout,
    LoggerSet := true,
    RecoverySet := true,
    Deflate := if c.Deflate.Enabled then initDeflateServer c.Deflate else c.Deflate }

/-- initClientOption, src/option.go lines 283-336. -/
def initClientOption (co : Option ClientOption) : ClientOption :=
  let c := co.getD {}
  { c with
    ReadMaxPayloadSize :=
      if c.ReadMaxPayloadSize ≤ 0 then defaultReadMaxPayloadSize
      else c.ReadMaxPayloadSize,
    ReadAsyncGoLimit :=
      if c.ReadAsyncGoLimit ≤ 0 then defaultReadAsyncGoLimit
      else c.ReadAsyncGoLimit,
    ReadBufferSize :=
      if c.ReadBufferSize ≤ 0 then defaultReadBufferSize else c.ReadBufferSize,
    WriteMaxPayloadSize :=
      if c.WriteMaxPayloadSize ≤ 0 then defaultWriteMaxPayloadSize
      else c.WriteMaxPayloadSize,
    WriteBufferSize :=
      if c.WriteBufferSize ≤ 0 then defaultWriteBufferSize
      else c.WriteBufferSize,
    HandshakeTimeout :=
      if c.HandshakeTimeout ≤ 0 then defaultHandshakeTimeout
      else c.HandshakeTimeout,
    RequestHeaderSet := true,
    NewDialerSet := true,
    NewSessionSet := true,
    LoggerSet := true,
    RecoverySet := true,
    Deflate := if c.Deflate.Enabled then initDeflateClient c.Deflate else c.Deflate }

/-- URL scheme of the dial address (src/client.go lines 42-44). -/
inductive Scheme
  | ws
  | wss
  | other
  deriving DecidableEq, Repr

/-- The pure prefix of NewClient (src/client.go lines 35-44): the option
is normalized through initClientOption before any other use, then the URL
scheme is checked; dialing and the handshake are transport I/O. -/
def NewClientCheck (opt : Option ClientOption) (scheme : Scheme) :
    Except GErr ClientOption :=
  let option := initClientOption opt
  if scheme ≠ .ws ∧ scheme ≠ .wss then .error .unsupportedProtocol
  else .ok option

/-- The pure prefix of NewClientFromConn (src/client.go lines 75-83): the
option is normalized through initClientOption before any other use. -/
def NewClientFromConnCheck (opt : Option ClientOption) : ClientOption :=
  initClientOption opt

/-- A well formed inbound frame for a connection with role s: clear
reserved bits and a mask bit consistent with the role. -/
abbrev FragOk (f : Frame) (s : Bool) : Prop :=
  f.rsv1 = false ∧ f.rsv2 = false ∧ f.rsv3 = false ∧ f.mask = s

/-- The continuation state invariant: an active continuation records a
Text or Binary opcode. -/
abbrev ConnInv (c : Conn) : Prop :=
  c.continuationFrame.initialized = true →
    (c.continuationFrame.opcode = OpcodeText ∨
     c.continuationFrame.opcode = OpcodeBinary)

/-! ## Helper lemmas on the frame reader -/

theorem Frame.plain_length (f : Frame) : f.plain.length = f.payload.length := by
  unfold Frame.plain MaskXOR
  split <;> simp

theorem checkMask_eq (c : Conn) (e : Bool) :
    c.checkMask e =
      if e = c.isServer then none else some CloseProtocolError := by
  rcases c with ⟨s, cfg, cf⟩
  cases s <;> cases e <;> simp [Conn.checkMask]

/-- Under a consistent mask bit, clear reserved bits and an in-bound
length, readFrame reduces to the data path for data opcodes. -/
theorem readFrame_data_eq (c : Conn) (f : Frame)
    (hlen : f.payload.length ≤ c.config.ReadMaxPayloadSize)
    (hok : FragOk f c.isServer) (hd : isDataFrame f.opcode = true) :
    c.readFrame f = c.readDataFrame f := by
  obtain ⟨h1, h2, h3, hm⟩ := hok
  unfold Conn.readFrame
  rw [if_neg (by omega), if_neg (by simp [h1, h2, h3]), checkMask_eq,
    if_pos hm]
  simp [hd]

/-- Line 114: a Text or Binary frame while a continuation is active is a
protocol error, state untouched. -/
theorem readDataFrame_err_active (c : Conn) (f : Frame)
    (hne : f.opcode ≠ OpcodeContinuation)
    (hini : c.continuationFrame.initialized = true) :
    c.readDataFrame f = (c, .err CloseProtocolError) := by
  unfold Conn.readDataFrame
  rw [if_pos ⟨hne, hini⟩]

/-- Line 131: a Continuation frame without an active continuation is a
protocol error, state untouched. -/
theorem readDataFrame_err_orphan (c : Conn) (f : Frame)
    (hop : f.opcode = OpcodeContinuation)
    (hini : c.continuationFrame.initialized = false) :
    c.readDataFrame f = (c, .err CloseProtocolError) := by
  unfold Conn.readDataFrame
  simp [hop, hini]

/-- Line 118: an unfragmented Text or Binary frame with no active
continuation is delivered directly. -/
theorem readDataFrame_single (c : Conn) (f : Frame)
    (hne : f.opcode ≠ OpcodeContinuation) (hfin : f.fin = true)
    (hini : c.continuationFrame.initialized = false) :
    c.readDataFrame f = (c, .msg ⟨f.opcode, f.plain⟩) := by
  unfold Conn.readDataFrame
  simp [hne, hfin, hini]

/-- Line 126: a FIN=0 Text or Binary frame with no active continuation
opens the continuation with the fragment as buffer. -/
theorem readDataFrame_open (c : Conn) (f : Frame)
    (hne : f.opcode ≠ OpcodeContinuation) (hfin : f.fin = false)
    (hini : c.continuationFrame.initialized = false)
    (hlen : f.payload.length ≤ c.config.ReadMaxPayloadSize) :
    c.readDataFrame f =
      ({ c with continuationFrame := ⟨true, f.opcode, f.plain⟩ }, .pending) := by
  have hb : ¬ f.plain.length > c.config.ReadMaxPayloadSize := by
    rw [Frame.plain_length]; omega
  unfold Conn.readDataFrame
  simp [hne, hfin, hini, hb]

/-- Lines 131-145: a Continuation frame while a continuation is active
appends; FIN=1 delivers the reassembled message and resets the state. -/
theorem readDataFrame_cont (c : Conn) (f : Frame)
    (hop : f.opcode = OpcodeContinuation)
    (hini : c.continuationFrame.initialized = true)
    (hlen : c.continuationFrame.buffer.length + f.payload.length ≤
      c.config.ReadMaxPayloadSize) :
    c.readDataFrame f =
      if f.fin then
        ({ c with continuationFrame := ContinuationFrame.reset },
         .msg ⟨c.continuationFrame.opcode,
               c.continuationFrame.buffer ++ f.plain⟩)
      else
        ({ c with continuationFrame :=
            ⟨true, c.continuationFrame.opcode,
              c.continuationFrame.buffer ++ f.plain⟩ },
         .pending) := by
  have hb : ¬ (c.continuationFrame.buffer ++ f.plain).length >
      c.config.ReadMaxPayloadSize := by
    rw [List.length_append, Frame.plain_length]; omega
  unfold Conn.readDataFrame
  cases hf : f.fin <;> simp [hop, hini, hb, hf] <;>
    rw [Frame.plain_length] <;> omega

/-- readDataFrame never changes the configuration or the role. -/
theorem readDataFrame_state (c : Conn) (f : Frame) :
    (c.readDataFrame f).1.config = c.config ∧
      (c.readDataFrame f).1.isServer = c.isServer := by
  simp only [Conn.readDataFrame]
  split_ifs <;> simp

/-- readFrame never changes the configuration or the role. -/
theorem readFrame_state (c : Conn) (f : Frame) :
    (c.readFrame f).1.config = c.config ∧
      (c.readFrame f).1.isServer = c.isServer := by
  simp only [Conn.readFrame]
  repeat' split
  all_goals simp [readDataFrame_state]

/-- readDataFrame preserves the continuation invariant (the opened opcode
is a data opcode distinct from Continuation). -/
theorem readDataFrame_inv (c : Conn) (f : Frame)
    (hd : isDataFrame f.opcode = true) (h : ConnInv c) :
    ConnInv (c.readDataFrame f).1 := by
  have hd2 : f.opcode ≤ 2 := by simpa [isDataFrame] using hd
  simp only [Conn.readDataFrame]
  split_ifs <;> intro hi <;>
    simp_all [ContinuationFrame.reset, OpcodeContinuation, OpcodeText,
      OpcodeBinary] <;> omega

/-- readFrame preserves the continuation invariant. -/
theorem readFrame_inv (c : Conn) (f : Frame) (h : ConnInv c) :
    ConnInv (c.readFrame f).1 := by
  simp only [Conn.readFrame]
  repeat' split
  all_goals try exact h
  all_goals rename_i hd
  all_goals exact readDataFrame_inv c f (by simpa using hd) h

/-- readControl never produces a message or a pending outcome. -/
theorem readControl_cases (c : Conn) (f : Frame) :
    (∃ e, c.readControl f = .err e) ∨ (∃ p, c.readControl f = .ping p) ∨
      (∃ p, c.readControl f = .pong p) ∨
      (∃ p, c.readControl f = .closeEvt p) := by
  unfold Conn.readControl
  split_ifs <;> simp

/-- Line 136: appending a fragment that pushes the running total past the
bound is CloseMessageTooLarge; the fragment was already appended. -/
theorem readDataFrame_overflow (c : Conn) (f : Frame)
    (hop : f.opcode = OpcodeContinuation)
    (hini : c.continuationFrame.initialized = true)
    (hlen : c.continuationFrame.buffer.length + f.payload.length >
      c.config.ReadMaxPayloadSize) :
    c.readDataFrame f =
      ({ c with continuationFrame :=
          ⟨true, c.continuationFrame.opcode,
            c.continuationFrame.buffer ++ f.plain⟩ },
       .err CloseMessageTooLarge) := by
  have hb : c.config.ReadMaxPayloadSize <
      c.continuationFrame.buffer.length + f.plain.length := by
    rw [Frame.plain_length]; omega
  unfold Conn.readDataFrame
  simp [hop, hini, hb]

/-- Line 76: an oversize declared length fails before anything else. -/
theorem readFrame_oversize (c : Conn) (f : Frame)
    (h : f.payload.length > c.config.ReadMaxPayloadSize) :
    c.readFrame f = (c, .err CloseMessageTooLarge) := by
  unfold Conn.readFrame
  rw [if_pos h]

/-- Line 87: any reserved bit set is a protocol error (once the size
guard passed). -/
theorem readFrame_rsv (c : Conn) (f : Frame)
    (hsz : f.payload.length ≤ c.config.ReadMaxPayloadSize)
    (hrsv : (f.rsv1 || f.rsv2 || f.rsv3) = true) :
    c.readFrame f = (c, .err CloseProtocolError) := by
  unfold Conn.readFrame
  rw [if_neg (by omega), if_pos hrsv]

/-- Lines 91-94: a mask bit inconsistent with the role is a protocol
error. -/
theorem readFrame_badmask (c : Conn) (f : Frame)
    (hsz : f.payload.length ≤ c.config.ReadMaxPayloadSize)
    (h1 : f.rsv1 = false) (h2 : f.rsv2 = false) (h3 : f.rsv3 = false)
    (hm : f.mask ≠ c.isServer) :
    c.readFrame f = (c, .err CloseProtocolError) := by
  unfold Conn.readFrame
  rw [if_neg (by omega), if_neg (by simp [h1, h2, h3]), checkMask_eq,
    if_neg hm]

/-- Lines 96-99: non data opcodes go to readControl. -/
theorem readFrame_control (c : Conn) (f : Frame)
    (hsz : f.payload.length ≤ c.config.ReadMaxPayloadSize)
    (hok : FragOk f c.isServer) (hd : isDataFrame f.opcode = false) :
    c.readFrame f = (c, c.readControl f) := by
  obtain ⟨h1, h2, h3, hm⟩ := hok
  unfold Conn.readFrame
  rw [if_neg (by omega), if_neg (by simp [h1, h2, h3]), checkMask_eq,
    if_pos hm]
  simp [hd]

/-- Any message delivered by readDataFrame under the readFrame length
guard satisfies the size bound, carries a Text or Binary opcode, and
leaves no active continuation. -/
theorem readDataFrame_msg (c : Conn) (f : Frame) (c1 : Conn) (m : Message)
    (hd : isDataFrame f.opcode = true) (hinv : ConnInv c)
    (hlen : f.payload.length ≤ c.config.ReadMaxPayloadSize)
    (h : c.readDataFrame f = (c1, .msg m)) :
    m.Data.length ≤ c.config.ReadMaxPayloadSize ∧
      (m.Opcode = OpcodeText ∨ m.Opcode = OpcodeBinary) ∧
      c1.continuationFrame.initialized = false := by
  have hd2 : f.opcode ≤ 2 := by simpa [isDataFrame] using hd
  have hpl := Frame.plain_length f
  by_cases hop : f.opcode = OpcodeContinuation
  · by_cases hini : c.continuationFrame.initialized = true
    · by_cases hb : c.continuationFrame.buffer.length + f.payload.length ≤
          c.config.ReadMaxPayloadSize
      · rw [readDataFrame_cont c f hop hini hb] at h
        by_cases hf : f.fin = true
        · rw [if_pos hf] at h
          injection h with hc ho
          injection ho with hmm
          subst hmm
          subst hc
          refine ⟨?_, hinv hini, rfl⟩
          show (c.continuationFrame.buffer ++ f.plain).length ≤
            c.config.ReadMaxPayloadSize
          rw [List.length_append, Frame.plain_length]
          omega
        · rw [if_neg hf] at h
          exact absurd h (by simp)
      · rw [readDataFrame_overflow c f hop hini (by omega)] at h
        exact absurd h (by simp)
    · rw [readDataFrame_err_orphan c f hop (by simpa using hini)] at h
      exact absurd h (by simp)
  · by_cases hini : c.continuationFrame.initialized = true
    · rw [readDataFrame_err_active c f hop hini] at h
      exact absurd h (by simp)
    · by_cases hf : f.fin = true
      · rw [readDataFrame_single c f hop hf (by simpa using hini)] at h
        injection h with hc ho
        injection ho with hmm
        subst hmm
        subst hc
        have hop0 : f.opcode ≠ 0 := by simpa [OpcodeContinuation] using hop
        refine ⟨?_, ?_, by simpa using hini⟩
        · show f.plain.length ≤ c.config.ReadMaxPayloadSize
          omega
        · show f.opcode = 1 ∨ f.opcode = 2
          omega
      · rw [readDataFrame_open c f hop (by simpa using hf)
            (by simpa using hini) hlen] at h
        exact absurd h (by simp)

/-- Any message delivered by readFrame satisfies the size bound, carries a
Text or Binary opcode, and leaves no active continuation. -/
theorem readFrame_msg (c : Conn) (f : Frame) (c1 : Conn) (m : Message)
    (hinv : ConnInv c) (h : c.readFrame f = (c1, .msg m)) :
    m.Data.length ≤ c.config.ReadMaxPayloadSize ∧
      (m.Opcode = OpcodeText ∨ m.Opcode = OpcodeBinary) ∧
      c1.continuationFrame.initialized = false := by
  unfold Conn.readFrame at h
  by_cases hsz : f.payload.length > c.config.ReadMaxPayloadSize
  · rw [if_pos hsz] at h
    exact absurd h (by simp)
  · rw [if_neg hsz] at h
    by_cases hrsv : (f.rsv1 || f.rsv2 || f.rsv3) = true
    · rw [if_pos hrsv] at h
      exact absurd h (by simp)
    · rw [if_neg hrsv] at h
      rcases hcm : c.checkMask f.mask with _ | code
      · simp only [hcm] at h
        by_cases hd : isDataFrame f.opcode = false
        · rw [if_pos hd] at h
          exfalso
          have hp : c.readControl f = .msg m := by
            have h2 := congrArg Prod.snd h
            simpa using h2
          rcases readControl_cases c f with ⟨e, he⟩ | ⟨p, he⟩ | ⟨p, he⟩ |
              ⟨p, he⟩ <;>
            rw [he] at hp <;> exact ReadOutcome.noConfusion hp
        · rw [if_neg hd] at h
          exact readDataFrame_msg c f c1 m (by simpa using hd) hinv
            (by omega) h
      · simp only [hcm] at h
        exact absurd h (by simp)

/-- An error outcome of readFrame leaves the initialized flag unchanged
(the connection is closed by the caller; no reset happens here). -/
theorem readFrame_err_flag (c : Conn) (f : Frame) (c1 : Conn) (e : Nat)
    (h : c.readFrame f = (c1, .err e)) :
    c1.continuationFrame.initialized = c.continuationFrame.initialized := by
  have hpl := Frame.plain_length f
  simp only [Conn.readFrame, Conn.readDataFrame] at h
  repeat' split at h
  all_goals try (exfalso; simp at h; done)
  all_goals rw [Prod.mk.injEq] at h
  all_goals obtain ⟨h1, h2⟩ := h
  all_goals subst h1
  all_goals first
    | rfl
    | (simp; done)
    | (exfalso; simp_all; done)
    | (exfalso; simp only [List.nil_append] at *; omega)

/-- Any message delivered by the ReadMessage loop from an invariant
respecting state satisfies the size bound and carries a Text or Binary
opcode. -/
theorem ReadMessage_msg (fs : List Frame) : ∀ (c c1 : Conn) (m : Message)
    (rest : List Frame), ConnInv c →
    c.ReadMessage fs = (c1, .msg m, rest) →
    m.Data.length ≤ c.config.ReadMaxPayloadSize ∧
      (m.Opcode = OpcodeText ∨ m.Opcode = OpcodeBinary) := by
  induction fs with
  | nil =>
    intro c c1 m rest _ h
    simp [Conn.ReadMessage] at h
  | cons f t ih =>
    intro c c1 m rest hinv h
    rcases hr : c.readFrame f with ⟨c2, r⟩
    have hcfg := (readFrame_state c f).1
    rw [hr] at hcfg
    have hinv2 := readFrame_inv c f hinv
    rw [hr] at hinv2
    simp only [Conn.ReadMessage] at h
    rw [hr] at h
    cases r with
    | err code => simp at h
    | closeEvt p => simp at h
    | ping p => exact hcfg ▸ ih c2 c1 m rest hinv2 h
    | pong p => exact hcfg ▸ ih c2 c1 m rest hinv2 h
    | pending => exact hcfg ▸ ih c2 c1 m rest hinv2 h
    | msg m2 =>
      have h2 : LoopResult.msg m2 = LoopResult.msg m :=
        congrArg (fun x => x.2.1) h
      injection h2 with hm
      subst hm
      obtain ⟨hb, ho, _⟩ := readFrame_msg c f c2 m2 hinv hr
      exact ⟨hb, ho⟩

/-- Reading a run of FIN=0 continuation fragments ended by a FIN=1
continuation fragment appends them to the active buffer and delivers the
recorded opcode, consuming exactly those frames. -/
theorem ReadMessage_chain (mids : List Frame) :
    ∀ (c : Conn) (lastf : Frame),
    c.continuationFrame.initialized = true →
    (∀ f ∈ mids, f.opcode = OpcodeContinuation ∧ f.fin = false ∧
      FragOk f c.isServer) →
    lastf.opcode = OpcodeContinuation → lastf.fin = true →
    FragOk lastf c.isServer →
    c.continuationFrame.buffer.length +
        ((mids.map fun f => f.payload.length).sum + lastf.payload.length) ≤
      c.config.ReadMaxPayloadSize →
    c.ReadMessage (mids ++ [lastf]) =
      ({ c with continuationFrame := ContinuationFrame.reset },
       .msg ⟨c.continuationFrame.opcode,
             c.continuationFrame.buffer ++
               ((mids.map Frame.plain).flatten ++ lastf.plain)⟩, []) := by
  induction mids with
  | nil =>
    intro c lastf hini _ hop hfin hokl hlen
    simp only [List.map_nil, List.sum_nil, Nat.zero_add] at hlen
    have hfr : c.readFrame lastf =
        ({ c with continuationFrame := ContinuationFrame.reset },
         .msg ⟨c.continuationFrame.opcode,
               c.continuationFrame.buffer ++ lastf.plain⟩) := by
      rw [readFrame_data_eq c lastf (by omega) hokl
        (by simp [hop, isDataFrame, OpcodeContinuation])]
      rw [readDataFrame_cont c lastf hop hini (by omega)]
      rw [if_pos hfin]
    simp only [List.nil_append, Conn.ReadMessage, hfr, List.map_nil,
      List.flatten_nil]

  | cons f t ih =>
    intro c lastf hini hmids hop hfin hokl hlen
    obtain ⟨hfop, hffin, hfok⟩ := hmids f (by simp)
    simp only [List.map_cons, List.sum_cons] at hlen
    have hpl := Frame.plain_length f
    have hfr : c.readFrame f =
        ({ c with continuationFrame :=
            ⟨true, c.continuationFrame.opcode,
              c.continuationFrame.buffer ++ f.plain⟩ },
         .pending) := by
      rw [readFrame_data_eq c f (by omega) hfok
        (by simp [hfop, isDataFrame, OpcodeContinuation])]
      rw [readDataFrame_cont c f hfop hini (by omega)]
      rw [if_neg (by simp [hffin])]
    have hrec := ih
      ({ c with continuationFrame :=
          ⟨true, c.continuationFrame.opcode,
            c.continuationFrame.buffer ++ f.plain⟩ }) lastf
      rfl
      (fun g hg => hmids g (by simp [hg]))
      hop hfin hokl
      (by simp only [List.length_append, Frame.plain_length]; omega)
    simp only [List.cons_append, Conn.ReadMessage, hfr]
    rw [List.append_eq, hrec]
    simp [List.append_assoc]

/-! ## Claim theorems -/

/-- C1: every data message split as Data(fin=0), Continuation(fin=0)*,
Continuation(fin=1) is reassembled by the readFrame loop into exactly one
message carrying the opcode of the first frame and the concatenation of
the fragment payloads; and a data frame in any opcode/continuation
combination other than the three sanctioned ones is rejected with
CloseProtocolError. -/
theorem claim1_fragment_reassembly :
    (∀ (c : Conn) (f0 : Frame) (mids : List Frame) (lastf : Frame),
      c.continuationFrame.initialized = false →
      (f0.opcode = OpcodeText ∨ f0.opcode = OpcodeBinary) →
      f0.fin = false → FragOk f0 c.isServer →
      (∀ f ∈ mids, f.opcode = OpcodeContinuation ∧ f.fin = false ∧
        FragOk f c.isServer) →
      lastf.opcode = OpcodeContinuation → lastf.fin = true →
      FragOk lastf c.isServer →
      f0.payload.length + ((mids.map fun f => f.payload.length).sum +
          lastf.payload.length) ≤ c.config.ReadMaxPayloadSize →
      c.ReadMessage (f0 :: (mids ++ [lastf])) =
        ({ c with continuationFrame := ContinuationFrame.reset },
         .msg ⟨f0.opcode,
               f0.plain ++ ((mids.map Frame.plain).flatten ++ lastf.plain)⟩,
         [])) ∧
    (∀ (c : Conn) (f : Frame),
      f.payload.length ≤ c.config.ReadMaxPayloadSize →
      FragOk f c.isServer → isDataFrame f.opcode = true →
      ((f.opcode ≠ OpcodeContinuation ∧
          c.continuationFrame.initialized = true) ∨
        (f.opcode = OpcodeContinuation ∧
          c.continuationFrame.initialized = false)) →
      c.readFrame f = (c, .err CloseProtocolError)) := by
  constructor
  · intro c f0 mids lastf hini hop hfin hok hmids hopl hfinl hokl hlen
    have hne : f0.opcode ≠ OpcodeContinuation := by
      rcases hop with h | h <;>
        simp [h, OpcodeText, OpcodeBinary, OpcodeContinuation]
    have hpl0 := Frame.plain_length f0
    have hfr : c.readFrame f0 =
        ({ c with continuationFrame := ⟨true, f0.opcode, f0.plain⟩ },
         .pending) := by
      rw [readFrame_data_eq c f0 (by omega) hok
        (by rcases hop with h | h <;>
          simp [h, isDataFrame, OpcodeText, OpcodeBinary])]
      exact readDataFrame_open c f0 hne hfin hini (by omega)
    have hrec := ReadMessage_chain mids
      ({ c with continuationFrame := ⟨true, f0.opcode, f0.plain⟩ }) lastf
      rfl hmids hopl hfinl hokl
      (by simp only [Frame.plain_length]; omega)
    simp only [Conn.ReadMessage, hfr]
    rw [hrec]
  · intro c f hsz hok hd hcase
    rw [readFrame_data_eq c f hsz hok hd]
    rcases hcase with ⟨hne, hini⟩ | ⟨hop, hini⟩
    · exact readDataFrame_err_active c f hne hini
    · exact readDataFrame_err_orphan c f hop hini

/-- C1 witness: a Text message split into three fragments over a fresh
client connection reassembles to the concatenated payload, and a Text
frame arriving while a continuation is active is rejected. -/
theorem claim1_fragment_reassembly_witness :
    (Conn.ReadMessage ⟨false, ⟨100, false, false⟩, ⟨false, 0, []⟩⟩
        [⟨false, false, false, false, false, [], 1, [104, 101]⟩,
         ⟨false, false, false, false, false, [], 0, [108]⟩,
         ⟨true, false, false, false, false, [], 0, [108, 111]⟩] =
      (⟨false, ⟨100, false, false⟩, ⟨false, 0, []⟩⟩,
       .msg ⟨1, [104, 101, 108, 108, 111]⟩, [])) ∧
    (Conn.readFrame ⟨false, ⟨100, false, false⟩, ⟨true, 1, [104]⟩⟩
        ⟨true, false, false, false, false, [], 1, [105]⟩ =
      (⟨false, ⟨100, false, false⟩, ⟨true, 1, [104]⟩⟩,
       .err CloseProtocolError)) := by
  constructor
  · have h := claim1_fragment_reassembly.1
      ⟨false, ⟨100, false, false⟩, ⟨false, 0, []⟩⟩
      ⟨false, false, false, false, false, [], 1, [104, 101]⟩
      [⟨false, false, false, false, false, [], 0, [108]⟩]
      ⟨true, false, false, false, false, [], 0, [108, 111]⟩
      rfl (Or.inl rfl) rfl (by decide) (by decide) rfl rfl (by decide)
      (by decide)
    simpa [Frame.plain, ContinuationFrame.reset] using h
  · exact claim1_fragment_reassembly.2
      ⟨false, ⟨100, false, false⟩, ⟨true, 1, [104]⟩⟩
      ⟨true, false, false, false, false, [], 1, [105]⟩
      (by decide) (by decide) (by decide) (Or.inl (by decide))

/-- C2: every message delivered by the ReadMessage loop has payload length
at most ReadMaxPayloadSize and a Text or Binary opcode; a frame whose
declared content length exceeds the bound fails with CloseMessageTooLarge;
a continuation fragment whose running reassembled total exceeds the bound
fails with CloseMessageTooLarge. -/
theorem claim2_payload_bounds :
    (∀ (c c1 : Conn) (fs rest : List Frame) (m : Message),
      ConnInv c → c.ReadMessage fs = (c1, .msg m, rest) →
      m.Data.length ≤ c.config.ReadMaxPayloadSize ∧
        (m.Opcode = OpcodeText ∨ m.Opcode = OpcodeBinary)) ∧
    (∀ (c : Conn) (f : Frame),
      f.payload.length > c.config.ReadMaxPayloadSize →
      c.readFrame f = (c, .err CloseMessageTooLarge)) ∧
    (∀ (c : Conn) (f : Frame),
      f.payload.length ≤ c.config.ReadMaxPayloadSize →
      FragOk f c.isServer → f.opcode = OpcodeContinuation →
      c.continuationFrame.initialized = true →
      c.continuationFrame.buffer.length + f.payload.length >
        c.config.ReadMaxPayloadSize →
      (c.readFrame f).2 = .err CloseMessageTooLarge) := by
  refine ⟨?_, readFrame_oversize, ?_⟩
  · intro c c1 fs rest m hinv h
    exact ReadMessage_msg fs c c1 m rest hinv h
  · intro c f hsz hok hop hini hovf
    rw [readFrame_data_eq c f hsz hok
      (by simp [hop, isDataFrame, OpcodeContinuation])]
    rw [readDataFrame_overflow c f hop hini hovf]

/-- C2 witness: a two byte text message under bound 3 is delivered within
bounds; a four byte frame under bound 3 is rejected 1009; a continuation
fragment pushing the total 2+2 past bound 3 is rejected 1009. -/
theorem claim2_payload_bounds_witness :
    ((Message.mk 1 [7, 8]).Data.length ≤ 3 ∧
      ((Message.mk 1 [7, 8]).Opcode = OpcodeText ∨
        (Message.mk 1 [7, 8]).Opcode = OpcodeBinary)) ∧
    (Conn.readFrame ⟨false, ⟨3, false, false⟩, ⟨false, 0, []⟩⟩
        ⟨true, false, false, false, false, [], 1, [1, 2, 3, 4]⟩ =
      (⟨false, ⟨3, false, false⟩, ⟨false, 0, []⟩⟩,
       .err CloseMessageTooLarge)) ∧
    ((Conn.readFrame ⟨false, ⟨3, false, false⟩, ⟨true, 1, [1, 2]⟩⟩
        ⟨true, false, false, false, false, [], 0, [3, 4]⟩).2 =
      .err CloseMessageTooLarge) := by
  refine ⟨?_, ?_, ?_⟩
  · exact claim2_payload_bounds.1
      ⟨false, ⟨3, false, false⟩, ⟨false, 0, []⟩⟩
      ⟨false, ⟨3, false, false⟩, ⟨false, 0, []⟩⟩
      [⟨true, false, false, false, false, [], 1, [7, 8]⟩] []
      ⟨1, [7, 8]⟩ (by decide) (by decide)
  · exact claim2_payload_bounds.2.1
      ⟨false, ⟨3, false, false⟩, ⟨false, 0, []⟩⟩
      ⟨true, false, false, false, false, [], 1, [1, 2, 3, 4]⟩ (by decide)
  · exact claim2_payload_bounds.2.2
      ⟨false, ⟨3, false, false⟩, ⟨true, 1, [1, 2]⟩⟩
      ⟨true, false, false, false, false, [], 0, [3, 4]⟩
      (by decide) (by decide) (by decide) (by decide) (by decide)

/-- C3 counterexample: the claim says the continuation state is reset upon
any protocol error returned by readFrame. After a Text FIN=0 frame opens a
continuation on a fresh server connection, a second Text frame is a
protocol error, yet the state still has initialized = true: no reset
happens on the error path. -/
theorem claim3_counterexample :
    ((Conn.readFrame ⟨true, ⟨100, false, false⟩, ⟨false, 0, []⟩⟩
          ⟨false, false, false, false, true, [0, 0, 0, 0], 1, [5]⟩).1.readFrame
        ⟨true, false, false, false, true, [0, 0, 0, 0], 1, [6]⟩).2 =
        .err CloseProtocolError ∧
      ((Conn.readFrame ⟨true, ⟨100, false, false⟩, ⟨false, 0, []⟩⟩
          ⟨false, false, false, false, true, [0, 0, 0, 0], 1, [5]⟩).1.readFrame
        ⟨true, false, false, false, true, [0, 0, 0, 0], 1,
          [6]⟩).1.continuationFrame.initialized = true := by
  decide

/-- C3 amended: initialized implies a Text or Binary opcode was recorded;
the flag can only become set by a Text or Binary frame with FIN=0; the
state is reset whenever a message is delivered (in particular after the
FIN=1 continuation frame); and on any error returned by readFrame the
initialized flag is left unchanged, not reset. -/
theorem claim3_continuation_state :
    (∀ (c : Conn) (f : Frame), ConnInv c → ConnInv (c.readFrame f).1) ∧
    (∀ (c : Conn) (f : Frame),
      c.continuationFrame.initialized = false →
      (c.readFrame f).1.continuationFrame.initialized = true →
      ((f.opcode = OpcodeText ∨ f.opcode = OpcodeBinary) ∧ f.fin = false)) ∧
    (∀ (c : Conn) (f : Frame) (c1 : Conn) (m : Message), ConnInv c →
      c.readFrame f = (c1, .msg m) →
      c1.continuationFrame.initialized = false) ∧
    (∀ (c : Conn) (f : Frame) (c1 : Conn) (e : Nat),
      c.readFrame f = (c1, .err e) →
      c1.continuationFrame.initialized = c.continuationFrame.initialized) := by
  refine ⟨readFrame_inv, ?_, ?_, readFrame_err_flag⟩
  · intro c f hini hset
    rcases hr : c.readFrame f with ⟨c2, r⟩
    rw [hr] at hset
    by_cases hcon : (f.opcode = OpcodeText ∨ f.opcode = OpcodeBinary) ∧
      f.fin = false
    · exact hcon
    · exfalso
      simp only [Conn.readFrame, Conn.readDataFrame] at hr
      repeat' split at hr
      all_goals rw [Prod.mk.injEq] at hr
      all_goals obtain ⟨h1, h2⟩ := hr
      all_goals subst h1
      all_goals
        simp_all [isDataFrame, OpcodeContinuation, OpcodeText,
          OpcodeBinary, ContinuationFrame.reset]
      all_goals omega
  · intro c f c1 m hinv h
    exact (readFrame_msg c f c1 m hinv h).2.2

/-- C3 witness for the amended statement: the invariant is preserved on a
fresh connection reading a Text FIN=0 frame; that frame is exactly a data
FIN=0 frame; a delivered message resets; an error leaves the flag. -/
theorem claim3_continuation_state_witness :
    ConnInv ((Conn.readFrame ⟨false, ⟨100, false, false⟩, ⟨false, 0, []⟩⟩
      ⟨false, false, false, false, false, [], 1, [5]⟩).1) ∧
    ((1 = OpcodeText ∨ 1 = OpcodeBinary) ∧ false = false) ∧
    ((Conn.continuationFrame
        ⟨false, ⟨100, false, false⟩, ⟨false, 0, []⟩⟩).initialized = false) ∧
    ((Conn.readFrame ⟨false, ⟨100, false, false⟩, ⟨true, 1, [4]⟩⟩
        ⟨true, false, false, false, false, [], 1,
          [5]⟩).1.continuationFrame.initialized =
      (Conn.continuationFrame
        ⟨false, ⟨100, false, false⟩, ⟨true, 1, [4]⟩⟩).initialized) := by
  refine ⟨?_, ?_, by decide, ?_⟩
  · exact claim3_continuation_state.1
      ⟨false, ⟨100, false, false⟩, ⟨false, 0, []⟩⟩
      ⟨false, false, false, false, false, [], 1, [5]⟩ (by decide)
  · exact claim3_continuation_state.2.1
      ⟨false, ⟨100, false, false⟩, ⟨false, 0, []⟩⟩
      ⟨false, false, false, false, false, [], 1, [5]⟩ (by decide) (by decide)
  · exact claim3_continuation_state.2.2.2
      ⟨false, ⟨100, false, false⟩, ⟨true, 1, [4]⟩⟩
      ⟨true, false, false, false, false, [], 1, [5]⟩
      ⟨false, ⟨100, false, false⟩, ⟨true, 1, [4]⟩⟩ CloseProtocolError
      (by decide)

/-- C4 counterexample: the claim says any frame with a reserved bit set
fails with CloseProtocolError; but the declared length check precedes the
reserved bit check, so an oversize frame with RSV1 set fails with
CloseMessageTooLarge 1009, not 1002. -/
theorem claim4_counterexample :
    Conn.readFrame ⟨false, ⟨4, false, false⟩, ⟨false, 0, []⟩⟩
        ⟨true, true, false, false, false, [], 1, [1, 2, 3, 4, 5]⟩ =
      (⟨false, ⟨4, false, false⟩, ⟨false, 0, []⟩⟩,
       .err CloseMessageTooLarge) ∧
    CloseMessageTooLarge ≠ CloseProtocolError := by
  decide

/-- C4 amended: for every inbound frame whose declared length is within
ReadMaxPayloadSize, any reserved bit set makes readFrame fail with
CloseProtocolError; this implementation negotiates no extension, so RSV1
is rejected like RSV2 and RSV3 and no compressed frame is ever accepted
or inflated. -/
theorem claim4_reserved_bits :
    ∀ (c : Conn) (f : Frame),
      f.payload.length ≤ c.config.ReadMaxPayloadSize →
      (f.rsv1 = true ∨ f.rsv2 = true ∨ f.rsv3 = true) →
      c.readFrame f = (c, .err CloseProtocolError) := by
  intro c f hsz hrsv
  apply readFrame_rsv c f hsz
  rcases hrsv with h | h | h <;> simp [h]

/-- C4 witness: an in-bound frame with RSV2 set is rejected with 1002. -/
theorem claim4_reserved_bits_witness :
    Conn.readFrame ⟨false, ⟨4, false, false⟩, ⟨false, 0, []⟩⟩
        ⟨true, false, true, false, false, [], 1, [1]⟩ =
      (⟨false, ⟨4, false, false⟩, ⟨false, 0, []⟩⟩,
       .err CloseProtocolError) :=
  claim4_reserved_bits ⟨false, ⟨4, false, false⟩, ⟨false, 0, []⟩⟩
    ⟨true, false, true, false, false, [], 1, [1]⟩ (by decide)
    (Or.inr (Or.inl rfl))

/-- C5: a control frame (Ping, Pong, Close) with FIN=0 or a length code
above 125 makes readControl fail with CloseProtocolError; a frame with an
opcode outside the closed opcode set makes readFrame fail with
CloseProtocolError. -/
theorem claim5_control_validation :
    (∀ (c : Conn) (f : Frame),
      (f.opcode = OpcodeCloseConnection ∨ f.opcode = OpcodePing ∨
        f.opcode = OpcodePong) →
      (f.fin = false ∨ f.lengthCode > ThresholdV1) →
      c.readControl f = .err CloseProtocolError) ∧
    (∀ (c : Conn) (f : Frame),
      f.payload.length ≤ c.config.ReadMaxPayloadSize →
      ¬(f.opcode = OpcodeContinuation ∨ f.opcode = OpcodeText ∨
        f.opcode = OpcodeBinary ∨ f.opcode = OpcodeCloseConnection ∨
        f.opcode = OpcodePing ∨ f.opcode = OpcodePong) →
      c.readFrame f = (c, .err CloseProtocolError)) := by
  constructor
  · intro c f _ hbad
    unfold Conn.readControl
    rcases hbad with hf | hl
    · rw [if_pos hf]
    · by_cases hfin : f.fin = false
      · rw [if_pos hfin]
      · rw [if_neg hfin, if_pos hl]
  · intro c f hsz hunk
    by_cases hrsv : (f.rsv1 || f.rsv2 || f.rsv3) = true
    · exact readFrame_rsv c f hsz hrsv
    · simp only [Bool.or_eq_true, not_or, Bool.not_eq_true] at hrsv
      obtain ⟨⟨h1, h2⟩, h3⟩ := hrsv
      by_cases hm : f.mask = c.isServer
      · have hd : isDataFrame f.opcode = false := by
          have k0 : f.opcode ≠ OpcodeContinuation := fun k => hunk (by tauto)
          have k1 : f.opcode ≠ OpcodeText := fun k => hunk (by tauto)
          have k2 : f.opcode ≠ OpcodeBinary := fun k => hunk (by tauto)
          simp only [isDataFrame, decide_eq_false_iff_not, Nat.not_le]
          simp only [OpcodeContinuation, OpcodeText, OpcodeBinary] at k0 k1 k2
          omega
        rw [readFrame_control c f hsz ⟨h1, h2, h3, hm⟩ hd]
        unfold Conn.readControl
        split_ifs with g1 g2 g3 g4 g5
        all_goals first
          | rfl
          | (exfalso; exact hunk (by tauto))
      · exact readFrame_badmask c f hsz h1 h2 h3 hm

/-- C5 witness: a FIN=0 Ping is rejected by readControl; a frame with the
unknown opcode 5 is rejected by readFrame with 1002. -/
theorem claim5_control_validation_witness :
    (Conn.readControl ⟨false, ⟨100, false, false⟩, ⟨false, 0, []⟩⟩
        ⟨false, false, false, false, false, [], 9, []⟩ =
      .err CloseProtocolError) ∧
    (Conn.readFrame ⟨false, ⟨100, false, false⟩, ⟨false, 0, []⟩⟩
        ⟨true, false, false, false, false, [], 5, [1]⟩ =
      (⟨false, ⟨100, false, false⟩, ⟨false, 0, []⟩⟩,
       .err CloseProtocolError)) := by
  constructor
  · exact claim5_control_validation.1
      ⟨false, ⟨100, false, false⟩, ⟨false, 0, []⟩⟩
      ⟨false, false, false, false, false, [], 9, []⟩
      (Or.inr (Or.inl rfl)) (Or.inl rfl)
  · exact claim5_control_validation.2
      ⟨false, ⟨100, false, false⟩, ⟨false, 0, []⟩⟩
      ⟨true, false, false, false, false, [], 5, [1]⟩
      (by decide) (by decide)

/-- C6: checkMask rejects exactly the frames whose MASK bit is
inconsistent with the role (a server rejects unmasked frames, a client
rejects masked frames) and passes otherwise; through readFrame an
inconsistent mask bit is a CloseProtocolError. -/
theorem claim6_mask_validation :
    (∀ (c : Conn) (e : Bool),
      (c.checkMask e = some CloseProtocolError ↔
        ((c.isServer = true ∧ e = false) ∨
          (c.isServer = false ∧ e = true))) ∧
      (c.checkMask e = none ↔ e = c.isServer)) ∧
    (∀ (c : Conn) (f : Frame),
      f.payload.length ≤ c.config.ReadMaxPayloadSize →
      f.rsv1 = false → f.rsv2 = false → f.rsv3 = false →
      f.mask ≠ c.isServer →
      c.readFrame f = (c, .err CloseProtocolError)) := by
  refine ⟨?_, readFrame_badmask⟩
  intro c e
  constructor
  · rw [checkMask_eq]
    cases hs : c.isServer <;> cases e <;> simp [hs]
  · rw [checkMask_eq]
    cases hs : c.isServer <;> cases e <;> simp [hs]

/-- C6 witness: a server connection rejects an unmasked frame at the
checkMask level and through readFrame; a masked frame passes checkMask on
the server. -/
theorem claim6_mask_validation_witness :
    (Conn.checkMask ⟨true, ⟨100, false, false⟩, ⟨false, 0, []⟩⟩ false =
      some CloseProtocolError) ∧
    (Conn.checkMask ⟨true, ⟨100, false, false⟩, ⟨false, 0, []⟩⟩ true =
      none) ∧
    (Conn.readFrame ⟨true, ⟨100, false, false⟩, ⟨false, 0, []⟩⟩
        ⟨true, false, false, false, false, [], 1, [1]⟩ =
      (⟨true, ⟨100, false, false⟩, ⟨false, 0, []⟩⟩,
       .err CloseProtocolError)) := by
  refine ⟨?_, ?_, ?_⟩
  · exact (claim6_mask_validation.1
      ⟨true, ⟨100, false, false⟩, ⟨false, 0, []⟩⟩ false).1.mpr
      (Or.inl ⟨rfl, rfl⟩)
  · exact (claim6_mask_validation.1
      ⟨true, ⟨100, false, false⟩, ⟨false, 0, []⟩⟩ true).2.mpr rfl
  · exact claim6_mask_validation.2
      ⟨true, ⟨100, false, false⟩, ⟨false, 0, []⟩⟩
      ⟨true, false, false, false, false, [], 1, [1]⟩
      (by decide) rfl rfl rfl (by decide)

/-- C7: emitMessage fails with CloseUnsupportedData exactly when UTF-8
checking is enabled, the opcode is Text and the payload is not valid; any
message with checking disabled or a non Text opcode is dispatched. -/
theorem claim7_utf8_validation :
    ∀ (valid : List Nat → Bool) (c : Conn) (m : Message),
      (c.emitMessage valid m = .err CloseUnsupportedData ↔
        (c.config.CheckUtf8Enabled = true ∧ m.Opcode = OpcodeText ∧
          valid m.Data = false)) ∧
      ((c.config.CheckUtf8Enabled = false ∨ m.Opcode ≠ OpcodeText) →
        c.emitMessage valid m = .dispatched c.config.ParallelEnabled) := by
  intro valid c m
  constructor
  · unfold Conn.emitMessage CheckEncoding
    split_ifs with g1 g2 <;> simp_all
  · intro hcase
    unfold Conn.emitMessage CheckEncoding
    split_ifs with g1 g2 <;> simp_all

/-- C7 witness: with checking enabled and a failing validator, a Text
message is rejected with 1007; a Binary message is dispatched. -/
theorem claim7_utf8_validation_witness :
    (Conn.emitMessage (fun _ => false)
        ⟨false, ⟨100, true, false⟩, ⟨false, 0, []⟩⟩ ⟨1, [255]⟩ =
      .err CloseUnsupportedData) ∧
    (Conn.emitMessage (fun _ => false)
        ⟨false, ⟨100, true, false⟩, ⟨false, 0, []⟩⟩ ⟨2, [255]⟩ =
      .dispatched false) := by
  constructor
  · exact (claim7_utf8_validation (fun _ => false)
      ⟨false, ⟨100, true, false⟩, ⟨false, 0, []⟩⟩ ⟨1, [255]⟩).1.mpr
      ⟨rfl, rfl, rfl⟩
  · exact (claim7_utf8_validation (fun _ => false)
      ⟨false, ⟨100, true, false⟩, ⟨false, 0, []⟩⟩ ⟨2, [255]⟩).2
      (Or.inr (by decide))

/-! ## Handshake and option claim helpers -/

theorem listHas_iff (l : List String) (x : String) :
    listHas l x = true ↔ x ∈ l := by
  induction l with
  | nil => simp [listHas]
  | cons y rest ih => simp [listHas, ih]

theorem Split_ne_empty (s x : String) (hx : x ∈ Split s) : x ≠ "" := by
  unfold Split at hx
  have h2 := (List.mem_filter.mp hx).2
  simpa using h2

theorem GetIntersectionElem_eq_empty (a b : List String) (ha : "" ∉ a) :
    (GetIntersectionElem a b = "" ↔ ∀ x ∈ a, x ∉ b) := by
  induction a with
  | nil => simp [GetIntersectionElem]
  | cons y rest ih =>
    have hy : y ≠ "" := fun h => ha (by simp [h])
    have ha2 : "" ∉ rest := fun h => ha (by simp [h])
    unfold GetIntersectionElem
    by_cases hb : listHas b y = true
    · rw [if_pos hb]
      constructor
      · intro h
        exact absurd h hy
      · intro hall
        exact absurd ((listHas_iff b y).mp hb) (hall y (by simp))
    · rw [if_neg hb]
      rw [ih ha2]
      constructor
      · intro hall x hx
        rcases List.mem_cons.mp hx with rfl | hx2
        · intro hxb
          exact hb ((listHas_iff b x).mpr hxb)
        · exact hall x hx2
      · intro hall x hx
        exact hall x (List.mem_cons_of_mem y hx)

/-- C8: the client handshake validation passes exactly when the status is
101, the Connection header contains Upgrade, the Upgrade header equals
websocket case insensitively, and the accept header equals the computed
accept key; any failure is ErrHandshake. If at least one subprotocol was
requested, getSubProtocol returns ErrSubprotocolNegotiation exactly when
no requested protocol occurs in the server answer. -/
theorem claim8_client_handshake :
    (∀ (cak : String → String) (c : Connector) (resp : HttpResponse),
      (Connector.checkHeaders cak c resp = none ↔
        (resp.StatusCode = 101 ∧
          HttpHeaderContains resp.ConnectionVal "Upgrade" = true ∧
          asciiEqualFold resp.UpgradeVal "websocket" = true ∧
          resp.SecWebSocketAcceptVal = cak c.secWebsocketKey)) ∧
      (Connector.checkHeaders cak c resp = none ∨
        Connector.checkHeaders cak c resp = some GErr.handshake)) ∧
    (∀ (c : Connector) (resp : HttpResponse),
      Split c.requestSecWebSocketProtocol ≠ [] →
      (c.getSubProtocol resp = .error GErr.subprotocolNegotiation ↔
        ∀ x ∈ Split c.requestSecWebSocketProtocol,
          x ∉ Split resp.SecWebSocketProtocolVal)) := by
  constructor
  · intro cak c resp
    constructor
    · unfold Connector.checkHeaders
      split_ifs with g1 g2 g3 g4 <;> simp_all
    · unfold Connector.checkHeaders
      split_ifs <;> simp
  · intro c resp ha
    have hne : "" ∉ Split c.requestSecWebSocketProtocol :=
      fun h => Split_ne_empty _ _ h rfl
    have hiff := GetIntersectionElem_eq_empty
      (Split c.requestSecWebSocketProtocol)
      (Split resp.SecWebSocketProtocolVal) hne
    unfold Connector.getSubProtocol
    by_cases hg : GetIntersectionElem (Split c.requestSecWebSocketProtocol)
        (Split resp.SecWebSocketProtocolVal) = ""
    · rw [if_pos ⟨List.length_pos.mpr ha, hg⟩]
      exact iff_of_true rfl (hiff.mp hg)
    · have hcond : ¬(0 < (Split c.requestSecWebSocketProtocol).length ∧
          GetIntersectionElem (Split c.requestSecWebSocketProtocol)
            (Split resp.SecWebSocketProtocolVal) = "") :=
        fun hc => hg hc.2
      rw [if_neg hcond]
      constructor
      · intro habs
        exact absurd habs (by simp)
      · intro hall
        exact (hg (hiff.mpr hall)).elim

/-- C8 witness: requesting the subprotocol chat against a response that
names none yields ErrSubprotocolNegotiation. -/
theorem claim8_client_handshake_witness :
    Split "chat" ≠ [] ∧
    Connector.getSubProtocol ⟨"k", "chat"⟩ ⟨101, "", "", "", ""⟩ =
      .error GErr.subprotocolNegotiation := by
  refine ⟨by decide, ?_⟩
  exact (claim8_client_handshake.2 ⟨"k", "chat"⟩ ⟨101, "", "", "", ""⟩
    (by decide)).mpr (by decide)

/-- C9 counterexample: the claim says any ServerMaxWindowBits outside
8..15 is set to 15, but with PermessageDeflate.Enabled = false the deflate
block is not normalized: the value 99 survives initServerOption. -/
theorem claim9_counterexample :
    (initServerOption
      (some { Deflate := { ServerMaxWindowBits := 99 } })).Deflate.ServerMaxWindowBits
        = 99 ∧
    (99 : Int) ≠ 15 := by
  constructor
  · rfl
  · decide

/-- C9 amended: after option initialization every nonpositive numeric
field takes its documented default; when PermessageDeflate.Enabled is
true, window bits outside 8..15 snap to 15, the threshold defaults, the
pool size is coerced to the next power of two on the server and fixed to
one on the client; when Enabled is false the deflate block is left
unchanged. -/
theorem claim9_option_defaults :
    (∀ c : ServerOption,
      (c.ReadMaxPayloadSize ≤ 0 →
        (initServerOption (some c)).ReadMaxPayloadSize =
          defaultReadMaxPayloadSize) ∧
      (c.ReadAsyncGoLimit ≤ 0 →
        (initServerOption (some c)).ReadAsyncGoLimit =
          defaultReadAsyncGoLimit) ∧
      (c.ReadBufferSize ≤ 0 →
        (initServerOption (some c)).ReadBufferSize =
          defaultReadBufferSize) ∧
      (c.WriteMaxPayloadSize ≤ 0 →
        (initServerOption (some c)).WriteMaxPayloadSize =
          defaultWriteMaxPayloadSize) ∧
      (c.HandshakeTimeout ≤ 0 →
        (initServerOption (some c)).HandshakeTimeout =
          defaultHandshakeTimeout) ∧
      (c.Deflate.Enabled = true →
        ((c.Deflate.ServerMaxWindowBits < 8 ∨
            c.Deflate.ServerMaxWindowBits > 15) →
          (initServerOption (some c)).Deflate.ServerMaxWindowBits = 15) ∧
        ((c.Deflate.ClientMaxWindowBits < 8 ∨
            c.Deflate.ClientMaxWindowBits > 15) →
          (initServerOption (some c)).Deflate.ClientMaxWindowBits = 15) ∧
        (c.Deflate.Threshold ≤ 0 →
          (initServerOption (some c)).Deflate.Threshold =
            defaultCompressThreshold) ∧
        (initServerOption (some c)).Deflate.PoolSize =
          ToBinaryNumber (if c.Deflate.PoolSize ≤ 0 then
            defaultCompressorPoolSize else c.Deflate.PoolSize)) ∧
      (c.Deflate.Enabled = false →
        (initServerOption (some c)).Deflate = c.Deflate)) ∧
    (∀ c : ClientOption,
      (c.ReadMaxPayloadSize ≤ 0 →
        (initClientOption (some c)).ReadMaxPayloadSize =
          defaultReadMaxPayloadSize) ∧
      (c.ReadAsyncGoLimit ≤ 0 →
        (initClientOption (some c)).ReadAsyncGoLimit =
          defaultReadAsyncGoLimit) ∧
      (c.ReadBufferSize ≤ 0 →
        (initClientOption (some c)).ReadBufferSize =
          defaultReadBufferSize) ∧
      (c.WriteMaxPayloadSize ≤ 0 →
        (initClientOption (some c)).WriteMaxPayloadSize =
          defaultWriteMaxPayloadSize) ∧
      (c.HandshakeTimeout ≤ 0 →
        (initClientOption (some c)).HandshakeTimeout =
          defaultHandshakeTimeout) ∧
      (c.Deflate.Enabled = true →
        ((c.Deflate.ServerMaxWindowBits < 8 ∨
            c.Deflate.ServerMaxWindowBits > 15) →
          (initClientOption (some c)).Deflate.ServerMaxWindowBits = 15) ∧
        ((c.Deflate.ClientMaxWindowBits < 8 ∨
            c.Deflate.ClientMaxWindowBits > 15) →
          (initClientOption (some c)).Deflate.ClientMaxWindowBits = 15) ∧
        (c.Deflate.Threshold ≤ 0 →
          (initClientOption (some c)).Deflate.Threshold =
            defaultCompressThreshold) ∧
        (initClientOption (some c)).Deflate.PoolSize = 1) ∧
      (c.Deflate.Enabled = false →
        (initClientOption (some c)).Deflate = c.Deflate)) := by
  constructor
  · intro c
    simp only [initServerOption, Option.getD_some]
    refine ⟨fun h => by rw [if_pos h], fun h => by rw [if_pos h],
      fun h => by rw [if_pos h], fun h => by rw [if_pos h],
      fun h => by rw [if_pos h], fun hEn => ?_,
      fun hEn => by rw [if_neg (by simp [hEn])]⟩
    rw [if_pos hEn]
    simp only [initDeflateServer]
    exact ⟨fun h => by rw [if_pos h], fun h => by rw [if_pos h],
      fun h => by rw [if_pos h], by trivial⟩
  · intro c
    simp only [initClientOption, Option.getD_some]
    refine ⟨fun h => by rw [if_pos h], fun h => by rw [if_pos h],
      fun h => by rw [if_pos h], fun h => by rw [if_pos h],
      fun h => by rw [if_pos h], fun hEn => ?_,
      fun hEn => by rw [if_neg (by simp [hEn])]⟩
    rw [if_pos hEn]
    simp only [initDeflateClient]
    exact ⟨fun h => by rw [if_pos h], fun h => by rw [if_pos h],
      fun h => by rw [if_pos h], by trivial⟩

/-- C9 witness: a zero server option takes the 16 MiB read bound; an
enabled client deflate block gets pool size one. -/
theorem claim9_option_defaults_witness :
    ((0 : Int) ≤ 0 ∧
      (initServerOption (some {})).ReadMaxPayloadSize =
        defaultReadMaxPayloadSize) ∧
    (initClientOption
        (some { Deflate := { Enabled := true, PoolSize := 5 } })).Deflate.PoolSize
      = 1 := by
  refine ⟨⟨le_refl 0, ?_⟩, ?_⟩
  · exact (claim9_option_defaults.1 {}).1 (by decide)
  · obtain ⟨-, -, -, -, -, hEn, -⟩ := claim9_option_defaults.2
      { Deflate := { Enabled := true, PoolSize := 5 } }
    exact (hEn rfl).2.2.2

/-- C10: the option initializers are total on a nil (none) argument and
give exactly the fully defaulted record obtained from a fresh zero value
record; NewClient and NewClientFromConn normalize the option through
initClientOption before any other use, so a nil option behaves like a
fresh record and never faults. -/
theorem claim10_nil_option_safety :
    (initServerOption none = initServerOption (some {})) ∧
    (initClientOption none = initClientOption (some {})) ∧
    ((initClientOption none).ReadMaxPayloadSize = defaultReadMaxPayloadSize ∧
      (initClientOption none).ReadAsyncGoLimit = defaultReadAsyncGoLimit ∧
      (initClientOption none).ReadBufferSize = defaultReadBufferSize ∧
      (initClientOption none).WriteMaxPayloadSize =
        defaultWriteMaxPayloadSize ∧
      (initClientOption none).WriteBufferSize = defaultWriteBufferSize ∧
      (initClientOption none).HandshakeTimeout = defaultHandshakeTimeout ∧
      (initClientOption none).RequestHeaderSet = true ∧
      (initClientOption none).NewDialerSet = true ∧
      (initClientOption none).NewSessionSet = true ∧
      (initClientOption none).LoggerSet = true ∧
      (initClientOption none).RecoverySet = true) ∧
    ((initServerOption none).AuthorizeSet = true ∧
      (initServerOption none).NewSessionSet = true ∧
      (initServerOption none).ResponseHeaderSet = true) ∧
    (∀ s : Scheme, NewClientCheck none s = NewClientCheck (some {}) s) ∧
    (∀ opt : Option ClientOption,
      NewClientCheck opt Scheme.ws = .ok (initClientOption opt)) ∧
    (NewClientFromConnCheck none = initClientOption none) := by
  refine ⟨rfl, rfl, by decide, by decide, fun s => rfl, fun opt => ?_, rfl⟩
  simp [NewClientCheck]

end Gws
